import Mathlib

/-!
# ObsidianStack — verification of spec claims against the source

Shallow embedding of the parts of `marocz/ObsidianStack` that the claims
concern:

* `agent/internal/compute` — the strength-score calculator (`score.go`,
  shipped here as `src/unnamed/part_009`) and the per-source delta engine
  (`engine.go`);
* `agent/internal/shipper` — the bounded buffer (`Ship`) and the drain
  loop's error handling (`drain`, `isPermanentError`);
* `server/internal/alerts` — condition evaluation (`condition.go`) and the
  rule engine (`engine.go`: `Evaluate`, `Active`).

Modelling conventions:

* Go `float64` is modelled as `ℚ` (exact arithmetic; the claims speak of
  real-valued behaviour, and none depends on rounding or NaN).
* Go `time.Time` / `time.Duration` are modelled as `ℚ` minutes (the engine
  converts to minutes via `.Minutes()`, and the alert engine only compares
  durations).
* Go maps are modelled as association lists; a missing key reads as the
  zero value, as in Go (`lookup0`).
* A Go buffered channel with no concurrent consumer is a FIFO list bounded
  by its capacity: receive takes the head, send appends at the tail.
-/

namespace ObsidianStack

/-! ## compute/score.go (src/unnamed/part_009) -/

namespace compute

/-- Weight constants for the strength score formula (they sum to 1.0). -/
def weightDrop : ℚ := 40 / 100
def weightLatency : ℚ := 30 / 100
def weightRecovery : ℚ := 20 / 100
def weightUptime : ℚ := 10 / 100

/-- State constants returned by the score calculator. -/
def StateHealthy : String := "healthy"
def StateDegraded : String := "degraded"
def StateCritical : String := "critical"
def StateUnknown : String := "unknown"

/-- Thresholds that map a score to a health state. -/
def ThresholdHealthy : ℚ := 85
def ThresholdDegraded : ℚ := 60

/-- `Input` of `Compute` (score.go). All percentage fields are 0–100 by
intent; `Compute` itself accepts anything. -/
structure Input where
  DropPct : ℚ
  LatencyP95ms : ℚ
  BaselineLatencyMs : ℚ
  RecoveryRate : ℚ
  UptimePct : ℚ
deriving Repr, DecidableEq

/-- `Output` of `Compute` (score.go). -/
structure Output where
  Score : ℚ
  State : String
  DropFactor : ℚ
  LatencyFactor : ℚ
  RecoveryFactor : ℚ
  UptimeFactor : ℚ
deriving Repr, DecidableEq

/-- `clamp01` restricts `v` to the range `[0, 1]` (score.go). -/
def clamp01 (v : ℚ) : ℚ :=
  if v < 0 then 0
  else if v > 1 then 1
  else v

/-- `stateFromScore` maps a numeric score to a named health state (score.go). -/
def stateFromScore (score : ℚ) : String :=
  if score ≥ ThresholdHealthy then StateHealthy
  else if score ≥ ThresholdDegraded then StateDegraded
  else StateCritical

/-- `Compute` calculates the pipeline strength score (score.go). The Go
zero-value `Output{State: StateUnknown}` of the no-data branch has every
numeric field 0. -/
def Compute (i : Input) : Output :=
  if i.UptimePct = 0 ∧ i.DropPct = 0 ∧ i.RecoveryRate = 0 then
    { Score := 0, State := StateUnknown, DropFactor := 0, LatencyFactor := 0,
      RecoveryFactor := 0, UptimeFactor := 0 }
  else
    let dropFactor := 1 - clamp01 (i.DropPct / 100)
    let latencyFactor :=
      if i.BaselineLatencyMs > 0 then 1 - clamp01 (i.LatencyP95ms / i.BaselineLatencyMs)
      else 1
    let recoveryFactor := clamp01 (i.RecoveryRate / 100)
    let uptimeFactor := clamp01 (i.UptimePct / 100)
    let score := (dropFactor * weightDrop + latencyFactor * weightLatency +
      recoveryFactor * weightRecovery + uptimeFactor * weightUptime) * 100
    { Score := score, State := stateFromScore score, DropFactor := dropFactor,
      LatencyFactor := latencyFactor, RecoveryFactor := recoveryFactor,
      UptimeFactor := uptimeFactor }

/-! ## compute/engine.go -/

/-- `ScrapeResult` (scraper package): raw counter totals of one scrape cycle.
Go maps are association lists read through `lookup0` (missing key = 0);
`Err` is `Option String` (`nil` error = `none`). `ScrapedAt` is unused by
the engine and omitted. -/
structure ScrapeResult where
  SourceID : String
  SourceType : String
  Received : List (String × ℚ)
  Dropped : List (String × ℚ)
  Extra : List (String × ℚ)
  Err : Option String
deriving Repr, DecidableEq

/-- Map read with Go semantics: a missing key yields the zero value. -/
def lookup0 (m : List (String × ℚ)) (k : String) : ℚ :=
  (m.lookup k).getD 0

/-- The all-zero `ScrapeResult` (Go nil pointer stand-in: every lookup is 0). -/
def emptyScrapeResult : ScrapeResult :=
  { SourceID := "", SourceType := "", Received := [], Dropped := [], Extra := [],
    Err := none }

/-- `SignalResult` (engine.go): per-signal-type breakdown. -/
structure SignalResult where
  «Type» : String
  ReceivedPM : ℚ
  DroppedPM : ℚ
  DropPct : ℚ
deriving Repr, DecidableEq

/-- `Result` (engine.go): the fully-derived health snapshot for one source.
`Timestamp` is ℚ minutes. -/
structure Result where
  SourceID : String
  SourceType : String
  Timestamp : ℚ
  State : String
  DropPct : ℚ
  RecoveryRate : ℚ
  ThroughputPM : ℚ
  StrengthScore : ℚ
  UptimePct : ℚ
  Signals : List SignalResult
  ErrorMessage : String
  Extra : List (String × ℚ)
deriving Repr, DecidableEq

/-- `sourceState` (engine.go): per-source counters and uptime history. -/
structure SourceState where
  prev : Option ScrapeResult
  prevTime : ℚ
  hasBaseline : Bool
  history : List Bool
deriving Repr, DecidableEq

/-- The Go zero value of `sourceState`, what `stateFor` creates. -/
def initialSourceState : SourceState :=
  { prev := none, prevTime := 0, hasBaseline := false, history := [] }

/-- `uptimeWindow` (engine.go): outcomes tracked for uptime %. -/
def uptimeWindow : ℕ := 20

/-- `signalTypes` (engine.go): the ordered signal names the engine tracks. -/
def signalTypes : List String := ["metrics", "logs", "traces"]

/-- `sourceState.recordScrape` (engine.go): drop the oldest outcome once the
window is full, then append the new one. -/
def recordScrape (st : SourceState) (success : Bool) : SourceState :=
  let h := if uptimeWindow ≤ st.history.length then st.history.drop 1 else st.history
  { st with history := h ++ [success] }

/-- `sourceState.uptimePct` (engine.go). -/
def uptimePct (st : SourceState) : ℚ :=
  if st.history.length = 0 then 100
  else (st.history.count true : ℚ) / (st.history.length : ℚ) * 100

/-- `sourceState.updateBaseline` (engine.go): only a successful scrape
advances the baseline. -/
def updateBaseline (st : SourceState) (res : ScrapeResult) (now : ℚ) : SourceState :=
  if res.Err.isNone then
    { st with prev := some res, prevTime := now, hasBaseline := true }
  else st

/-- `deltaOf` (engine.go): positive counter delta; counter reset reads as 0. -/
def deltaOf (current previous : ℚ) : ℚ :=
  if current - previous < 0 then 0 else current - previous

/-- The elapsed-time computation of `Process` (engine.go lines 97–100):
`elapsed := now.Sub(st.prevTime).Minutes(); if elapsed <= 0 { elapsed = 1 }`. -/
def elapsedOf (dt : ℚ) : ℚ :=
  if dt ≤ 0 then 1 else dt

/-- Received-counter delta of one signal between the previous and current
scrape (the loop body of `Process`). -/
def sigRecvDelta (prev res : ScrapeResult) (sig : String) : ℚ :=
  deltaOf (lookup0 res.Received sig) (lookup0 prev.Received sig)

/-- Dropped-counter delta of one signal between the previous and current
scrape (the loop body of `Process`). -/
def sigDropDelta (prev res : ScrapeResult) (sig : String) : ℚ :=
  deltaOf (lookup0 res.Dropped sig) (lookup0 prev.Dropped sig)

/-- `totalRecvDelta` accumulated over `signalTypes` in `Process`. -/
def totalRecvDeltaOf (prev res : ScrapeResult) : ℚ :=
  (signalTypes.map (sigRecvDelta prev res)).sum

/-- `totalDropDelta` accumulated over `signalTypes` in `Process`. -/
def totalDropDeltaOf (prev res : ScrapeResult) : ℚ :=
  (signalTypes.map (sigDropDelta prev res)).sum

/-- `strings.HasSuffix` on the character list. -/
def strEndsWith (s suf : String) : Bool :=
  s.data.reverse.take suf.data.length == suf.data.reverse

/-- `Engine.Process` (engine.go), restricted to the state of the one source
`res` names (`stateFor` returns the source's `sourceState`, the Go zero
value on first sight — `initialSourceState` here). Returns the derived
`Result` together with the source's state after the call. -/
def Process (st0 : SourceState) (res : ScrapeResult) (now : ℚ) : Result × SourceState :=
  let success := res.Err.isNone
  let st := recordScrape st0 success
  let base : Result :=
    { SourceID := res.SourceID, SourceType := res.SourceType, Timestamp := now,
      State := "", DropPct := 0, RecoveryRate := 0, ThroughputPM := 0,
      StrengthScore := 0, UptimePct := uptimePct st, Signals := [],
      ErrorMessage := "", Extra := [] }
  match res.Err with
  | some msg =>
      ({ base with State := compute.StateUnknown, ErrorMessage := msg },
       updateBaseline st res now)
  | none =>
      if st.hasBaseline = false then
        -- First successful scrape: store counters, return unknown.
        ({ base with State := compute.StateUnknown }, updateBaseline st res now)
      else
        let prev := st.prev.getD emptyScrapeResult
        let elapsed := elapsedOf (now - st.prevTime)
        let signals := signalTypes.filterMap (fun sig =>
          let recvDelta := sigRecvDelta prev res sig
          let dropDelta := sigDropDelta prev res sig
          let total := recvDelta + dropDelta
          let sigDropPct := if total > 0 then dropDelta / total * 100 else 0
          if recvDelta > 0 ∨ dropDelta > 0 then
            some { «Type» := sig, ReceivedPM := recvDelta / elapsed,
                   DroppedPM := dropDelta / elapsed, DropPct := sigDropPct }
          else none)
        let totalRecvDelta := totalRecvDeltaOf prev res
        let totalDelta := totalRecvDelta + totalDropDeltaOf prev res
        let dropPct := if totalDelta > 0 then totalDropDeltaOf prev res / totalDelta * 100 else 0
        let recoveryRate := 100 - dropPct
        let scoreOut := compute.Compute
          { DropPct := dropPct, LatencyP95ms := 0, BaselineLatencyMs := 0,
            RecoveryRate := recoveryRate, UptimePct := base.UptimePct }
        let extra := res.Extra.map (fun p =>
          if strEndsWith p.1 "_size" ∨ strEndsWith p.1 "_capacity" then p
          else
            let prevV := (match st.prev with
              | some pr => lookup0 pr.Extra p.1
              | none => 0)
            (p.1 ++ "_pm", deltaOf p.2 prevV / elapsed))
        ({ base with
            State := scoreOut.State
            DropPct := dropPct
            RecoveryRate := recoveryRate
            ThroughputPM := totalRecvDelta / elapsed
            StrengthScore := scoreOut.Score
            Signals := signals
            Extra := extra },
         updateBaseline st res now)

end compute

/-! ## shipper/shipper.go -/

namespace shipper

/-- `Shipper.Ship` (shipper.go), with no concurrent consumer, on a buffered
channel of capacity `n` modelled as a FIFO list (receive takes the head,
send appends at the tail). If the buffer is full the oldest entry (head) is
evicted to make room. (`cfg.BufferSize ≥ 1`; on an unbuffered channel the
final blocking send of the Go code would block forever, so every theorem
assumes `0 < n`.) -/
def Ship {α : Type} (n : ℕ) (buf : List α) (snap : α) : List α :=
  if buf.length < n then buf ++ [snap]
  else buf.drop 1 ++ [snap]

/-- The gRPC status codes distinguished by the shipper. -/
inductive GrpcCode where
  | ok
  | invalidArgument
  | unauthenticated
  | permissionDenied
  | unavailable
  | deadlineExceeded
  | resourceExhausted
  | other
deriving Repr, DecidableEq

/-- `isPermanentError` (shipper.go): codes meaning the snapshot itself is
invalid and should not be retried. -/
def isPermanentError (code : GrpcCode) : Bool :=
  match code with
  | GrpcCode.invalidArgument => true
  | GrpcCode.unauthenticated => true
  | GrpcCode.permissionDenied => true
  | _ => false

/-- Outcome of one failed-send iteration of `drain`: the buffer contents
afterwards, and whether `drain` returns (making `Run` reconnect). -/
structure DrainOutcome (α : Type) where
  buf : List α
  reconnect : Bool
deriving Repr, DecidableEq

/-- The error branch of `Shipper.drain` (shipper.go lines 145–161): the
snapshot `snap` was received from the buffer (leaving `rest` buffered,
capacity `n`) and `SendSnapshot` failed with `code`. The code first puts
`snap` back with a non-blocking channel send — which appends at the TAIL
when there is room and drops `snap` when the buffer is full — and only then
branches on `isPermanentError`: `continue` (no reconnect) for permanent
errors, `return err` (reconnect) otherwise. -/
def drainSendFail {α : Type} (n : ℕ) (snap : α) (rest : List α) (code : GrpcCode) :
    DrainOutcome α :=
  let requeued := if rest.length < n then rest ++ [snap] else rest
  { buf := requeued, reconnect := !isPermanentError code }

end shipper

/-! ## server/internal/alerts (condition.go, engine.go) -/

namespace alerts

/-- `pb.PipelineSnapshot`, restricted to the fields the alert engine reads. -/
structure CertInfo where
  DaysLeft : ℤ
deriving Repr, DecidableEq

structure PipelineSnapshot where
  SourceId : String
  State : String
  DropPct : ℚ
  StrengthScore : ℚ
  ThroughputPerMin : ℚ
  UptimePct : ℚ
  LatencyP95Ms : ℚ
  LatencyP99Ms : ℚ
  Certs : List CertInfo
deriving Repr, DecidableEq

/-- Whitespace as split by Go `strings.Fields` (`unicode.IsSpace` on the
characters that occur in rule conditions). -/
def isSpace (c : Char) : Bool :=
  c = ' ' ∨ c = '\t' ∨ c = '\n' ∨ c = '\r'

/-- Accumulator pass of `fields`; `acc` holds the current word reversed. -/
def fieldsAux : List Char → List Char → List String
  | [], acc => if acc.isEmpty then [] else [String.mk acc.reverse]
  | c :: cs, acc =>
    if isSpace c then
      if acc.isEmpty then fieldsAux cs []
      else String.mk acc.reverse :: fieldsAux cs []
    else fieldsAux cs (c :: acc)

/-- Go `strings.Fields`: split around runs of whitespace. -/
def fields (s : String) : List String := fieldsAux s.data []

def isDigit (c : Char) : Bool := '0' ≤ c ∧ c ≤ '9'

/-- Longest digit run at the head of the list, and the remainder. -/
def takeDigits : List Char → List Char × List Char
  | [] => ([], [])
  | c :: cs =>
    if isDigit c then
      let p := takeDigits cs
      (c :: p.1, p.2)
    else ([], c :: cs)

def digitVal (c : Char) : ℕ := c.toNat - '0'.toNat

def natOfDigits (ds : List Char) : ℕ :=
  ds.foldl (fun a c => a * 10 + digitVal c) 0

/-- `strconv.ParseFloat(rhs, 64)` restricted to plain decimal literals
(`[+-]?digits[.digits]`, at least one digit), the forms rule thresholds
take; anything else is a parse error (`none`). Exact, since `float64` is
modelled as ℚ. -/
def parseFloat (s : String) : Option ℚ :=
  let p0 : Bool × List Char :=
    match s.data with
    | '-' :: r => (true, r)
    | '+' :: r => (false, r)
    | cs => (false, cs)
  let sign : ℚ := if p0.1 then -1 else 1
  let ip := takeDigits p0.2
  match ip.2 with
  | [] => if ip.1.isEmpty then none else some (sign * natOfDigits ip.1)
  | '.' :: r2 =>
    let fp := takeDigits r2
    if fp.2.isEmpty ∧ (ip.1.isEmpty = false ∨ fp.1.isEmpty = false) then
      some (sign * ((natOfDigits ip.1 : ℚ) + (natOfDigits fp.1 : ℚ) / 10 ^ fp.1.length))
    else none
  | _ => none

/-- `compareFloat` (condition.go): apply a comparison operator. -/
def compareFloat (v : ℚ) (op : String) (threshold : ℚ) : Bool :=
  if op = ">" then v > threshold
  else if op = ">=" then v ≥ threshold
  else if op = "<" then v < threshold
  else if op = "<=" then v ≤ threshold
  else if op = "==" then v = threshold
  else false

/-- `numericField` (condition.go): map a field name to its snapshot value;
an unknown field maps to 0. -/
def numericField (field : String) (snap : PipelineSnapshot) : ℚ :=
  if field = "drop_pct" then snap.DropPct
  else if field = "strength_score" then snap.StrengthScore
  else if field = "throughput" then snap.ThroughputPerMin
  else if field = "uptime_pct" then snap.UptimePct
  else if field = "latency_p95_ms" then snap.LatencyP95Ms
  else if field = "latency_p99_ms" then snap.LatencyP99Ms
  else 0

/-- The `cert_days_left` loop of `evalCondition`: first certificate whose
days-left satisfies the comparison wins. -/
def certScan (certs : List CertInfo) (op : String) (threshold : ℚ) : Bool × ℚ :=
  match certs with
  | [] => (false, 0)
  | c :: cs =>
    if compareFloat (c.DaysLeft : ℚ) op threshold then (true, (c.DaysLeft : ℚ))
    else certScan cs op threshold

/-- `evalCondition` (condition.go): evaluate a `field op value` rule
condition against a snapshot, returning `(fires, triggering value)`. -/
def evalCondition (cond : String) (snap : PipelineSnapshot) : Bool × ℚ :=
  match fields cond with
  | [field, op, rhs] =>
    if field = "state" then
      if op = "==" then (snap.State == rhs, 0) else (false, 0)
    else if field = "cert_days_left" then
      match parseFloat rhs with
      | none => (false, 0)
      | some threshold => certScan snap.Certs op threshold
    else
      match parseFloat rhs with
      | none => (false, 0)
      | some threshold => (compareFloat (numericField field snap) op threshold,
                           numericField field snap)
  | _ => (false, 0)

/-- `config.AlertRule`: one threshold-based alert condition. `Cooldown` is
ℚ minutes. -/
structure AlertRule where
  Name : String
  Condition : String
  Severity : String
  Cooldown : ℚ
deriving Repr, DecidableEq

/-- `Alert` (engine.go). Times are ℚ minutes. `ID` and `Message` are built
from the same data as the Go `fmt.Sprintf` calls, rendering numbers with
`toString` in place of `%d`/`%.2f`. -/
structure Alert where
  ID : String
  RuleName : String
  SourceID : String
  Severity : String
  Message : String
  Value : ℚ
  FiredAt : ℚ
  ResolvedAt : Option ℚ
  State : String
deriving Repr, DecidableEq

/-- `defaultCooldown` (engine.go): 15 minutes. -/
def defaultCooldown : ℚ := 15

/-- `maxHistoryLen` (engine.go). -/
def maxHistoryLen : ℕ := 200

/-- `recentWindowHours` (engine.go), converted to minutes. -/
def recentWindowMinutes : ℚ := 60

/-- The engine's mutable maps, modelled as association lists (`active` and
`lastFire` are Go maps keyed by `"ruleName:sourceID"`; `history` is the
slice of recently resolved alerts, newest appended last). -/
structure EngState where
  active : List (String × Alert)
  lastFire : List (String × ℚ)
  history : List Alert
deriving Repr, DecidableEq

/-- The zero-valued engine state `New` creates. -/
def engInit : EngState := { active := [], lastFire := [], history := [] }

/-- Go map read of `lastFire`: a missing key is the zero `time.Time`,
i.e. 0. -/
def lastFireAt (st : EngState) (key : String) : ℚ :=
  ((st.lastFire.lookup key).getD 0)

/-- Go map write: replace the binding if present, else add it. -/
def mapInsert {β : Type} (m : List (String × β)) (k : String) (v : β) :
    List (String × β) :=
  match m with
  | [] => [(k, v)]
  | p :: rest => if p.1 = k then (k, v) :: rest else p :: mapInsert rest k v

/-- Go map `delete`: remove the binding if present. -/
def mapErase {β : Type} (m : List (String × β)) (k : String) :
    List (String × β) :=
  match m with
  | [] => []
  | p :: rest => if p.1 = k then rest else p :: mapErase rest k

/-- The effective cooldown of a rule (engine.go lines 194–197):
`cooldown ≤ 0` falls back to `defaultCooldown`. -/
def cooldownOf (rule : AlertRule) : ℚ :=
  if rule.Cooldown ≤ 0 then defaultCooldown else rule.Cooldown

/-- One iteration of the rule loop of `Engine.Evaluate` (engine.go lines
187–252) for `rule` against `snap` at time `now`. Returns the engine state
afterwards together with the alerts handed to `deliver` (webhook
dispatch). -/
def evaluateRule (rule : AlertRule) (snap : PipelineSnapshot) (now : ℚ)
    (st : EngState) : EngState × List Alert :=
  let key := rule.Name ++ ":" ++ snap.SourceId
  let fv := evalCondition rule.Condition snap
  if fv.1 then
    if now - lastFireAt st key > cooldownOf rule then
      let sev := if rule.Severity = "" then "warning" else rule.Severity
      let a : Alert :=
        { ID := rule.Name ++ ":" ++ snap.SourceId ++ ":" ++ toString now
          RuleName := rule.Name
          SourceID := snap.SourceId
          Severity := sev
          Message := "[" ++ sev ++ "] " ++ rule.Name ++ " fired on " ++
            snap.SourceId ++ " — " ++ rule.Condition ++ " = " ++ toString fv.2
          Value := fv.2
          FiredAt := now
          ResolvedAt := none
          State := "firing" }
      ({ st with
          active := mapInsert st.active key a
          lastFire := mapInsert st.lastFire key now }, [a])
    else (st, [])
  else
    match st.active.lookup key with
    | some a =>
      if a.State = "firing" then
        let resolved : Alert := { a with State := "resolved", ResolvedAt := some now }
        let hist0 := st.history ++ [resolved]
        let hist := if maxHistoryLen < hist0.length
          then hist0.drop (hist0.length - maxHistoryLen) else hist0
        ({ st with
            active := mapErase st.active key
            history := hist }, [resolved])
      else (st, [])
    | none => (st, [])

/-- `Engine.Evaluate` (engine.go): run every configured rule against `snap`,
threading the state and collecting all delivered alerts. (The Go early
return for an empty rule list coincides with the empty fold.) -/
def Evaluate (rules : List AlertRule) (snap : PipelineSnapshot) (now : ℚ)
    (st : EngState) : EngState × List Alert :=
  rules.foldl
    (fun acc rule =>
      let r := evaluateRule rule snap now acc.1
      (r.1, acc.2 ++ r.2))
    (st, [])

/-- `Engine.Active` (engine.go lines 257–275): copies of the currently
firing alerts (in `active`-map iteration order, modelled as the association
list's order) followed by the history entries resolved after
`now − 1 hour`. No sorting happens. -/
def Active (st : EngState) (now : ℚ) : List Alert :=
  let cutoff := now - recentWindowMinutes
  st.active.map (fun p => p.2) ++
    st.history.filter (fun a =>
      match a.ResolvedAt with
      | some t => cutoff < t
      | none => false)

/-- The time an alert is ranked by when the spec says "sorted newest first
(by fire/resolve time)": resolve time for resolved alerts, fire time for
firing ones. -/
def eventTime (a : Alert) : ℚ := a.ResolvedAt.getD a.FiredAt

/-- Modelled from the spec: "sorted newest-first" — every alert in the list
is at least as recent as all alerts after it. Used to compare `Active`
against the specified ordering. -/
def sortedNewestFirst (l : List Alert) : Prop :=
  l.Pairwise (fun a b => eventTime b ≤ eventTime a)

end alerts

/-! ## Concrete example inputs used by witnesses and counterexamples -/

namespace examples

open ObsidianStack.compute ObsidianStack.alerts

/-- A baseline scrape: 10 items received on `metrics`, nothing dropped. -/
def resPrev : ScrapeResult :=
  { SourceID := "otel-1", SourceType := "otelcol",
    Received := [("metrics", 10)], Dropped := [], Extra := [], Err := none }

/-- The follow-up scrape 30 seconds later: 10 more items on `metrics`. -/
def resNext : ScrapeResult :=
  { SourceID := "otel-1", SourceType := "otelcol",
    Received := [("metrics", 20)], Dropped := [], Extra := [], Err := none }

/-- Source state after a successful baseline scrape at time 0. -/
def stBase : SourceState :=
  { prev := some resPrev, prevTime := 0, hasBaseline := true, history := [true] }

/-- A failed scrape carrying an error message. -/
def resFailed : ScrapeResult :=
  { SourceID := "otel-1", SourceType := "otelcol",
    Received := [], Dropped := [], Extra := [], Err := some "connection refused" }

/-- A snapshot with every numeric field 0 (all that matters for the
unknown-field counterexample: `numericField` reads 0 whatever the field). -/
def snapZero : PipelineSnapshot :=
  { SourceId := "otel-1", State := "healthy", DropPct := 0, StrengthScore := 0,
    ThroughputPerMin := 0, UptimePct := 0, LatencyP95Ms := 0, LatencyP99Ms := 0,
    Certs := [] }

/-- A snapshot with `drop_pct = 25`. -/
def snapDrop25 : PipelineSnapshot :=
  { SourceId := "otel-1", State := "degraded", DropPct := 25, StrengthScore := 70,
    ThroughputPerMin := 100, UptimePct := 100, LatencyP95Ms := 0, LatencyP99Ms := 0,
    Certs := [] }

/-- Rule `drop_pct > 10`, cooldown 15 minutes. -/
def ruleDrop : AlertRule :=
  { Name := "high_drop", Condition := "drop_pct > 10", Severity := "warning",
    Cooldown := 15 }

/-- A still-firing alert fired at time 0. -/
def alertFiringOld : Alert :=
  { ID := "r1:s1:0", RuleName := "r1", SourceID := "s1", Severity := "warning",
    Message := "m1", Value := 1, FiredAt := 0, ResolvedAt := none, State := "firing" }

/-- An alert fired at time 30 and resolved at time 50. -/
def alertResolvedRecent : Alert :=
  { ID := "r2:s1:30", RuleName := "r2", SourceID := "s1", Severity := "warning",
    Message := "m2", Value := 2, FiredAt := 30, ResolvedAt := some 50,
    State := "resolved" }

/-- Engine state holding the firing alert and the recently resolved one. -/
def stAlerts : EngState :=
  { active := [("r1:s1", alertFiringOld)], lastFire := [("r1:s1", 0)],
    history := [alertResolvedRecent] }

end examples

/-! ## Theorems -/

open compute shipper alerts examples

/-- `clamp01` really lands in `[0, 1]`. -/
theorem clamp01_mem (v : ℚ) : 0 ≤ clamp01 v ∧ clamp01 v ≤ 1 := by
  unfold clamp01
  split_ifs with h1 h2 <;> constructor <;> linarith

/-- C5: for every input to the strength-score calculator `Compute`, the
returned `Score` lies in `[0, 100]` and each of the four factors (drop,
latency, recovery, uptime) lies in `[0, 1]`. -/
theorem compute_score_and_factors_bounded (i : Input) :
    (0 ≤ (Compute i).Score ∧ (Compute i).Score ≤ 100) ∧
    (0 ≤ (Compute i).DropFactor ∧ (Compute i).DropFactor ≤ 1) ∧
    (0 ≤ (Compute i).LatencyFactor ∧ (Compute i).LatencyFactor ≤ 1) ∧
    (0 ≤ (Compute i).RecoveryFactor ∧ (Compute i).RecoveryFactor ≤ 1) ∧
    (0 ≤ (Compute i).UptimeFactor ∧ (Compute i).UptimeFactor ≤ 1) := by
  unfold Compute
  by_cases h : i.UptimePct = 0 ∧ i.DropPct = 0 ∧ i.RecoveryRate = 0
  · simp only [if_pos h]
    norm_num
  · simp only [if_neg h]
    have hd := clamp01_mem (i.DropPct / 100)
    have hr := clamp01_mem (i.RecoveryRate / 100)
    have hu := clamp01_mem (i.UptimePct / 100)
    have hl : 0 ≤ (if i.BaselineLatencyMs > 0
          then 1 - clamp01 (i.LatencyP95ms / i.BaselineLatencyMs) else 1) ∧
        (if i.BaselineLatencyMs > 0
          then 1 - clamp01 (i.LatencyP95ms / i.BaselineLatencyMs) else 1) ≤ 1 := by
      split_ifs with hb
      · have := clamp01_mem (i.LatencyP95ms / i.BaselineLatencyMs)
        constructor <;> linarith [this.1, this.2]
      · norm_num
    unfold weightDrop weightLatency weightRecovery weightUptime
    refine ⟨⟨?_, ?_⟩, ⟨?_, ?_⟩, ⟨?_, ?_⟩, ⟨?_, ?_⟩, ⟨?_, ?_⟩⟩ <;>
      nlinarith [hd.1, hd.2, hr.1, hr.2, hu.1, hu.2, hl.1, hl.2]

/-- C1: the claim says a permanent send failure discards the snapshot (it
is not in the buffer afterwards). The code (shipper.go 145–161) requeues
the snapshot *before* testing `isPermanentError` — contradicting its own
comment "Permanent errors … → log and discard" and its log line
"discarding snapshot" — so after an `invalid_argument` failure on a
capacity-2 buffer the failed snapshot is still buffered (and, the buffer
being otherwise empty, is resent at once). Only the no-reconnect half of
the claim holds. -/
theorem drain_permanent_error_keeps_snapshot :
    drainSendFail 2 "bad" ([] : List String) GrpcCode.invalidArgument
        = { buf := ["bad"], reconnect := false } ∧
      "bad" ∈ (drainSendFail 2 "bad" ([] : List String) GrpcCode.invalidArgument).buf := by
  constructor
  · rfl
  · decide

/-- C4: the claim says a transient send failure requeues the failed
snapshot at the *head* of the buffer, so it is the first snapshot sent
after reconnect. The requeue is a non-blocking send on the buffer channel
(shipper.go 147–152), which appends at the TAIL — contradicting the code's
own comment "Put the snapshot back at the front if there's room". With
capacity 3 and one other snapshot still buffered, the failed snapshot
lands behind it, so it is sent second after reconnect, not first. (The
drop-only-when-full half of the claim does hold.) -/
theorem drain_transient_error_requeues_at_tail :
    drainSendFail 3 "a" ["b"] GrpcCode.unavailable
        = { buf := ["b", "a"], reconnect := true } ∧
      (drainSendFail 3 "a" ["b"] GrpcCode.unavailable).buf.head? ≠ some "a" := by
  constructor
  · rfl
  · decide

/-- C3: the claim (and the doc comment of `evalCondition`, condition.go
line 25) says a rule naming an unknown field never fires. But unknown
fields reach the `default` branch, where `numericField` returns 0 and the
comparison still runs: condition `"bogus < 5"` fires on any snapshot
because `0 < 5`. -/
theorem evalCondition_unknown_field_fires :
    evalCondition "bogus < 5" snapZero = (true, 0) := by
  have hf : fields "bogus < 5" = ["bogus", "<", "5"] := by decide
  have hp : parseFloat "5" = some 5 := by
    simp [parseFloat, takeDigits, isDigit, natOfDigits, digitVal]
  simp [evalCondition, hf, hp, numericField, compareFloat, snapZero]

/-- C9: the claim (and the doc comment of `Active`, engine.go 255–256)
says `Active` returns the firing plus recently-resolved alerts sorted
newest first. The code appends the history entries after the active ones
and never sorts: with one alert still firing since time 0 and one resolved
at time 50, `Active` at time 60 returns the stale firing alert first. -/
theorem active_not_sorted_newest_first :
    Active stAlerts 60 = [alertFiringOld, alertResolvedRecent] ∧
      ¬ sortedNewestFirst (Active stAlerts 60) := by
  have h1 : Active stAlerts 60 = [alertFiringOld, alertResolvedRecent] := by
    simp only [Active, stAlerts, recentWindowMinutes, alertResolvedRecent,
      List.map, List.filter]
    norm_num
  refine ⟨h1, ?_⟩
  rw [h1]
  simp only [sortedNewestFirst, eventTime, alertFiringOld, alertResolvedRecent]
  norm_num [List.pairwise_cons]

/-- C7: with no concurrent consumer, enqueueing onto a full capacity-`n`
buffer evicts the oldest snapshot, so after any sequence of `Ship` calls
starting from an empty buffer the buffer holds exactly the `n` most
recently enqueued snapshots, in enqueue order. -/
theorem ship_buffer_keeps_newest {α : Type} (n : ℕ) (xs : List α) (hn : 0 < n) :
    List.foldl (Ship n) [] xs = xs.drop (xs.length - n) := by
  induction xs using List.reverseRecOn with
  | nil => simp
  | append_singleton ys y ih =>
    rw [List.foldl_append, List.foldl_cons, List.foldl_nil, ih]
    unfold Ship
    by_cases h : ys.length < n
    · have h0 : ys.length - n = 0 := by omega
      have h1 : (ys ++ [y]).length - n = 0 := by
        rw [List.length_append]; simp; omega
      rw [h0, List.drop_zero, if_pos h, h1, List.drop_zero]
    · push_neg at h
      have hlen : (ys.drop (ys.length - n)).length = n := by
        rw [List.length_drop]; omega
      rw [if_neg (by rw [hlen]; omega)]
      rw [List.drop_drop]
      have h2 : ys.length - n + 1 = ys.length + 1 - n := by omega
      have h3 : (ys ++ [y]).length - n = ys.length + 1 - n := by
        rw [List.length_append]; simp
      rw [h2, h3]
      rw [List.drop_append_of_le_length (by omega)]

/-- Witness for C7: `enqueue(a); enqueue(b); enqueue(c)` on a capacity-2
buffer leaves `[b, c]`. -/
theorem ship_buffer_keeps_newest_witness :
    0 < 2 ∧ List.foldl (Ship 2) ([] : List ℕ) [10, 20, 30] = [20, 30] := by
  refine ⟨by decide, ?_⟩
  have h := ship_buffer_keeps_newest 2 [10, 20, 30] (by decide)
  simpa using h

/-- C6: a failed scrape yields state `unknown` with the error message
copied into `ErrorMessage`, leaves `prev`, `prevTime` and `hasBaseline`
exactly as they were, and changes only the rolling outcome window (the
resulting state is precisely `recordScrape st false`). -/
theorem process_failed_scrape_preserves_baseline (st : SourceState)
    (res : ScrapeResult) (now : ℚ) (msg : String) (he : res.Err = some msg) :
    (Process st res now).1.State = StateUnknown ∧
    (Process st res now).1.ErrorMessage = msg ∧
    (Process st res now).2.prev = st.prev ∧
    (Process st res now).2.prevTime = st.prevTime ∧
    (Process st res now).2.hasBaseline = st.hasBaseline ∧
    (Process st res now).2 = recordScrape st false := by
  unfold Process
  rw [he]
  simp [updateBaseline, recordScrape, he]

/-- Witness for C6: a concrete failed scrape against an established
baseline. -/
theorem process_failed_scrape_witness :
    resFailed.Err = some "connection refused" ∧
    ((Process stBase resFailed 1).1.State = StateUnknown ∧
     (Process stBase resFailed 1).1.ErrorMessage = "connection refused" ∧
     (Process stBase resFailed 1).2.prev = stBase.prev ∧
     (Process stBase resFailed 1).2.prevTime = stBase.prevTime ∧
     (Process stBase resFailed 1).2.hasBaseline = stBase.hasBaseline ∧
     (Process stBase resFailed 1).2 = recordScrape stBase false) :=
  ⟨rfl, process_failed_scrape_preserves_baseline stBase resFailed 1
    "connection refused" rfl⟩

/-- C2 counterexample: the claim says the divisor for per-minute rates is
`max(now − prevTime, 1 minute)`, so rates of scrapes less than a minute
apart are divided by a full minute and stay bounded by the counter deltas.
On the code (`elapsedOf`, engine.go 97–100) only `now − prevTime ≤ 0` is
floored: a steady-state scrape 30 seconds (1/2 minute) after its baseline,
with a received-counter delta of 10, reports `ThroughputPM = 20`, divided
by 1/2 rather than by the claimed `max(1/2, 1) = 1`. -/
theorem process_subminute_rate_not_floored :
    elapsedOf ((1 : ℚ)/2) ≠ max ((1 : ℚ)/2) 1 ∧
      (Process stBase resNext ((1 : ℚ)/2)).1.ThroughputPM = 20 := by
  constructor
  · unfold elapsedOf
    norm_num
  · unfold Process
    simp only [stBase, resNext, resPrev]
    simp [recordScrape, updateBaseline, uptimePct, elapsedOf,
      totalRecvDeltaOf, totalDropDeltaOf, sigRecvDelta, sigDropDelta,
      signalTypes, lookup0, deltaOf, List.lookup]
    norm_num

/-- C2 (amended): in a steady-state `Process` call the rate divisor is
`now − prevTime` whenever that is positive, and 1 minute only when it is
zero or negative; so back-to-back or retrograde scrapes are divided by a
full minute (rates bounded by the counter deltas), while scrapes a
positive fraction of a minute apart are divided by the true elapsed
time. -/
theorem process_rate_divisor (st : SourceState) (res : ScrapeResult) (now : ℚ)
    (hb : st.hasBaseline = true) (he : res.Err = none) :
    (Process st res now).1.ThroughputPM
        = totalRecvDeltaOf (st.prev.getD emptyScrapeResult) res
            / elapsedOf (now - st.prevTime) ∧
    (now - st.prevTime ≤ 0 →
      (Process st res now).1.ThroughputPM
        = totalRecvDeltaOf (st.prev.getD emptyScrapeResult) res) ∧
    (0 < now - st.prevTime →
      (Process st res now).1.ThroughputPM
        = totalRecvDeltaOf (st.prev.getD emptyScrapeResult) res
            / (now - st.prevTime)) := by
  have hmain : (Process st res now).1.ThroughputPM
      = totalRecvDeltaOf (st.prev.getD emptyScrapeResult) res
          / elapsedOf (now - st.prevTime) := by
    unfold Process
    rw [he]
    simp [recordScrape, hb]
  refine ⟨hmain, ?_, ?_⟩
  · intro h
    rw [hmain]
    unfold elapsedOf
    rw [if_pos h, div_one]
  · intro h
    rw [hmain]
    unfold elapsedOf
    rw [if_neg (by linarith)]

/-- Witness for C2 (amended): the concrete 30-second steady-state scrape;
the divisor is the true 1/2 minute. -/
theorem process_rate_divisor_witness :
    stBase.hasBaseline = true ∧ resNext.Err = none ∧
      (Process stBase resNext ((1 : ℚ)/2)).1.ThroughputPM
        = totalRecvDeltaOf (stBase.prev.getD emptyScrapeResult) resNext
            / elapsedOf ((1 : ℚ)/2 - stBase.prevTime) :=
  ⟨rfl, rfl, (process_rate_divisor stBase resNext ((1 : ℚ)/2) rfl rfl).1⟩

/-- In the steady-state path the engine always feeds `Compute` an input
with `RecoveryRate = 100 − DropPct`, which makes the no-data branch
(`UptimePct = 0 ∧ DropPct = 0 ∧ RecoveryRate = 0`) unsatisfiable, so the
state comes from `stateFromScore`. -/
theorem compute_state_with_complement (i : Input)
    (h : i.RecoveryRate = 100 - i.DropPct) :
    (Compute i).State = StateHealthy ∨ (Compute i).State = StateDegraded ∨
      (Compute i).State = StateCritical := by
  unfold Compute
  by_cases hz : i.UptimePct = 0 ∧ i.DropPct = 0 ∧ i.RecoveryRate = 0
  · exfalso
    obtain ⟨-, h2, h3⟩ := hz
    rw [h, h2] at h3
    linarith
  · simp only [if_neg hz]
    unfold stateFromScore
    split_ifs <;> simp

/-- C10: a steady-state `Process` call (successful scrape with an existing
baseline) never returns state `unknown` — the state is one of `healthy`,
`degraded`, `critical`, because `RecoveryRate = 100 − DropPct` makes
`Compute`'s no-data branch unreachable. -/
theorem process_steady_state_never_unknown (st : SourceState)
    (res : ScrapeResult) (now : ℚ) (hb : st.hasBaseline = true)
    (he : res.Err = none) :
    (Process st res now).1.State = StateHealthy ∨
      (Process st res now).1.State = StateDegraded ∨
      (Process st res now).1.State = StateCritical := by
  have hstate : (Process st res now).1.State
      = (Compute
          { DropPct := (let prev := st.prev.getD emptyScrapeResult;
              let totalDelta := totalRecvDeltaOf prev res + totalDropDeltaOf prev res;
              if totalDelta > 0 then totalDropDeltaOf prev res / totalDelta * 100 else 0)
            LatencyP95ms := 0
            BaselineLatencyMs := 0
            RecoveryRate := (let prev := st.prev.getD emptyScrapeResult;
              let totalDelta := totalRecvDeltaOf prev res + totalDropDeltaOf prev res;
              100 - (if totalDelta > 0 then totalDropDeltaOf prev res / totalDelta * 100 else 0))
            UptimePct := uptimePct (recordScrape st true) }).State := by
    unfold Process
    rw [he]
    simp [recordScrape, hb]
  rw [hstate]
  exact compute_state_with_complement _ rfl

/-- Witness for C10: the concrete 30-second steady-state scrape ends in a
known state. -/
theorem process_steady_state_never_unknown_witness :
    stBase.hasBaseline = true ∧ resNext.Err = none ∧
      ((Process stBase resNext ((1 : ℚ)/2)).1.State = StateHealthy ∨
       (Process stBase resNext ((1 : ℚ)/2)).1.State = StateDegraded ∨
       (Process stBase resNext ((1 : ℚ)/2)).1.State = StateCritical) :=
  ⟨rfl, rfl, process_steady_state_never_unknown stBase resNext ((1 : ℚ)/2) rfl rfl⟩

/-- C8: when `Evaluate`'s per-rule step sees the rule's condition true but
the key's last fire is within the effective cooldown (the configured
cooldown, or 15 minutes when that is ≤ 0), the engine state is completely
unchanged — no alert created, `active` and `lastFire` untouched — and no
delivery is dispatched. -/
theorem evaluate_within_cooldown_no_refire (rule : AlertRule)
    (snap : PipelineSnapshot) (now : ℚ) (st : EngState)
    (hf : (evalCondition rule.Condition snap).1 = true)
    (hc : now - lastFireAt st (rule.Name ++ ":" ++ snap.SourceId) ≤ cooldownOf rule) :
    evaluateRule rule snap now st = (st, []) := by
  unfold evaluateRule
  simp only [hf, if_true]
  rw [if_neg (by linarith)]

/-- Witness for C8: rule `drop_pct > 10` with cooldown 15 minutes, two
snapshots with `drop_pct = 25` one minute apart (times 100 and 101). The
first evaluation delivers exactly one alert; the theorem applied to the
second evaluation shows it changes nothing and delivers nothing — the rule
fires exactly once. -/
theorem evaluate_within_cooldown_no_refire_witness :
    ((evalCondition ruleDrop.Condition snapDrop25).1 = true ∧
      101 - lastFireAt (evaluateRule ruleDrop snapDrop25 100 engInit).1
          (ruleDrop.Name ++ ":" ++ snapDrop25.SourceId) ≤ cooldownOf ruleDrop) ∧
    evaluateRule ruleDrop snapDrop25 101 (evaluateRule ruleDrop snapDrop25 100 engInit).1
        = ((evaluateRule ruleDrop snapDrop25 100 engInit).1, []) ∧
    (evaluateRule ruleDrop snapDrop25 100 engInit).2.length = 1 := by
  have hfields : fields "drop_pct > 10" = ["drop_pct", ">", "10"] := by decide
  have hparse : parseFloat "10" = some 10 := by
    simp [parseFloat, takeDigits, isDigit, natOfDigits, digitVal]
  have hf : (evalCondition ruleDrop.Condition snapDrop25).1 = true := by
    simp only [ruleDrop, evalCondition, hfields, hparse]
    simp [numericField, snapDrop25, compareFloat]
    norm_num
  have hkey : ruleDrop.Name ++ ":" ++ snapDrop25.SourceId = "high_drop:otel-1" := by
    decide
  have hfirst : 100 - lastFireAt engInit (ruleDrop.Name ++ ":" ++ snapDrop25.SourceId)
      > cooldownOf ruleDrop := by
    rw [hkey]
    simp [lastFireAt, engInit, cooldownOf, ruleDrop]
    norm_num
  have hst1 : (evaluateRule ruleDrop snapDrop25 100 engInit).1.lastFire
      = [("high_drop:otel-1", 100)] := by
    unfold evaluateRule
    simp only [hf, if_true]
    rw [if_pos hfirst]
    simp [mapInsert, engInit, hkey]
  have hlook : (List.lookup "high_drop:otel-1"
      [("high_drop:otel-1", (100 : ℚ))]).getD 0 = 100 := by
    simp [List.lookup]
  have hc : 101 - lastFireAt (evaluateRule ruleDrop snapDrop25 100 engInit).1
      (ruleDrop.Name ++ ":" ++ snapDrop25.SourceId) ≤ cooldownOf ruleDrop := by
    unfold lastFireAt
    rw [hkey, hst1, hlook]
    norm_num [cooldownOf, ruleDrop]
  have hlen : (evaluateRule ruleDrop snapDrop25 100 engInit).2.length = 1 := by
    unfold evaluateRule
    simp only [hf, if_true]
    rw [if_pos hfirst]
    simp
  exact ⟨⟨hf, hc⟩,
    evaluate_within_cooldown_no_refire ruleDrop snapDrop25 101
      (evaluateRule ruleDrop snapDrop25 100 engInit).1 hf hc, hlen⟩

end ObsidianStack
